import Mathlib

/-!
Shallow embedding of `src/CalendarCreator.py`: the configuration validator
(`validate_config`, `is_valid_date`), the recurrence evaluator and day
resolver (the event-collection part of `draw_events_for_date`), and the
month-grid construction used by `create_calendar_page`
(`calendar.Calendar(firstweekday=6).monthdayscalendar(year, month)`).
Python `datetime.date` values are modelled as (year, month, day) triples with
the proleptic-Gregorian ordinal of `date.toordinal`; Python exceptions are
modelled with `Except PyErr`.
-/

/-- Python exception classes the embedded code can raise. -/
inductive PyErr where
  | typeError
  | valueError
  | zeroDivisionError
  | indexError
  | keyError
deriving DecidableEq, Repr

/-- A `datetime.date`: a (year, month, day) triple. -/
structure Date where
  year : Nat
  month : Nat
  day : Nat
deriving DecidableEq, Repr

/-- Gregorian leap-year rule, as implemented by `datetime` and `calendar`. -/
def isLeapYear (y : Nat) : Bool := (y % 4 == 0 && y % 100 != 0) || y % 400 == 0

/-- Length of month `m` of year `y` (`calendar.monthrange` / `date` semantics). -/
def daysInMonth (y m : Nat) : Nat :=
  if m = 2 then (if isLeapYear y then 29 else 28)
  else if m = 4 ∨ m = 6 ∨ m = 9 ∨ m = 11 then 30 else 31

/-- Days in all years before year `y` (part of `date.toordinal`). -/
def daysBeforeYear (y : Nat) : Nat :=
  (y - 1) * 365 + (y - 1) / 4 - (y - 1) / 100 + (y - 1) / 400

/-- Days in the months of year `y` before month `m` (part of `date.toordinal`). -/
def daysBeforeMonth (y m : Nat) : Nat :=
  (List.range (m - 1)).foldl (fun acc i => acc + daysInMonth y (i + 1)) 0

/-- Python `date(y, m, d).toordinal()`: day 1 is 0001-01-01 (a Monday). -/
def toOrdinal (y m d : Nat) : Nat := daysBeforeYear y + daysBeforeMonth y m + d

/-- Ordinal of a `Date` as an integer: `(d1 - d2).days` in Python is the
difference of the two ordinals. -/
def Date.ordinal (d : Date) : Int := (toOrdinal d.year d.month d.day : Int)

/-- Python `date` comparison `a <= b` (lexicographic on (year, month, day)). -/
def Date.ble (a b : Date) : Bool :=
  if a.year = b.year then
    (if a.month = b.month then decide (a.day ≤ b.day) else decide (a.month < b.month))
  else decide (a.year < b.year)

/-- Numeric value of a run of decimal digits (how `int` and `strptime` read
a digit string). -/
def digitsVal (l : List Char) : Nat := l.foldl (fun a c => a * 10 + (c.toNat - 48)) 0

/-- Python `datetime.strptime(s, "%Y-%m-%d").date()` as used by
`is_valid_date` and `draw_events_for_date`: `%Y` matches exactly four
digits, `%m` one or two digits valued 1..12, `%d` one or two digits valued
1..31, the separators are literal `-`, the whole string must be consumed,
and the matched (y, m, d) must be an existing calendar date with
`1 <= year` (the `date` constructor rejects year 0 and impossible days).
Returns `none` where Python raises `ValueError`. -/
def parseDate (s : String) : Option Date :=
  match s.data with
  | a :: b :: c :: d :: sep1 :: rest =>
    if a.isDigit && b.isDigit && c.isDigit && d.isDigit && sep1 == '-' then
      let M := rest.takeWhile (fun ch => ch != '-')
      match rest.drop M.length with
      | sep2 :: dd =>
        let y := digitsVal [a, b, c, d]
        let mv := digitsVal M
        let dv := digitsVal dd
        if sep2 == '-' && M.all Char.isDigit && (M.length == 1 || M.length == 2)
            && decide (1 ≤ mv) && decide (mv ≤ 12)
            && dd.all Char.isDigit && (dd.length == 1 || dd.length == 2)
            && decide (1 ≤ dv) && decide (dv ≤ daysInMonth y mv)
            && decide (1 ≤ y) then
          some ⟨y, mv, dv⟩
        else none
      | [] => none
    else none
  | _ => none

/-- `is_valid_date(s)` of the source for format `"%Y-%m-%d"`: `strptime`
succeeds (the `ValueError` is caught and turned into `False`). -/
def isValidDate (s : String) : Bool := (parseDate s).isSome

example : isValidDate "2025-01-01" = true := by decide
example : isValidDate "2025-2-14" = true := by decide
example : isValidDate "2025-02-30" = false := by decide
example : isValidDate "2024-02-29" = true := by decide
example : isValidDate "2023-02-29" = false := by decide
example : isValidDate "2025-13-01" = false := by decide
example : isValidDate "2025-01-01-01" = false := by decide
example : isValidDate "20250101" = false := by decide
example : isValidDate "" = false := by decide
example : parseDate "2025-1-7" = some ⟨2025, 1, 7⟩ := by decide
example : toOrdinal 2025 1 1 % 7 = 3 := by decide

/-- Equality of `Except` results is decidable (used only to evaluate the
embedded functions at concrete inputs). -/
instance {ε α : Type} [DecidableEq ε] [DecidableEq α] : DecidableEq (Except ε α) := fun a b =>
  match a, b with
  | .ok x, .ok y =>
    if h : x = y then .isTrue (congrArg Except.ok h)
    else .isFalse (fun hc => h (Except.ok.inj hc))
  | .error x, .error y =>
    if h : x = y then .isTrue (congrArg Except.error h)
    else .isFalse (fun hc => h (Except.error.inj hc))
  | .ok _, .error _ => .isFalse (fun hc => Except.noConfusion hc)
  | .error _, .ok _ => .isFalse (fun hc => Except.noConfusion hc)

/-- A single event of the configuration: the `date` field is kept as the
raw string of the config (the source compares it to the cell's date string
with `==`, never parsing it). -/
structure SingleEvent where
  date : String
  description : String
deriving DecidableEq, Repr

/-- A recurring event of the configuration; `recurrence`, `start_date` and
the optional `end_date` are kept as the raw strings of the config (the
source re-parses them at every cell). -/
structure RecurringEvent where
  recurrence : String
  start_date : String
  end_date : Option String
  description : String
deriving DecidableEq, Repr

/-- The `events` mapping handed to `draw_events_for_date` (a missing
`single_events`/`recurring_events` key behaves as the empty list, since the
source only iterates a key that is present). -/
structure Events where
  single_events : List SingleEvent
  recurring_events : List RecurringEvent
deriving DecidableEq, Repr

/-- Python `int(s)` restricted to the shapes the evaluator can receive: a
nonempty run of decimal digits parses to its value, anything else raises
`ValueError` (a validated recurrence token always leaves a digit run here). -/
def pyInt (l : List Char) : Except PyErr Int :=
  if !l.isEmpty && l.all Char.isDigit then .ok (digitsVal l : Nat) else .error .valueError

/-- Python `%` on integers: raises `ZeroDivisionError` on a zero divisor,
otherwise the floored (sign-of-divisor) remainder, which for the positive
divisors used here coincides with `Int.emod`. -/
def pyMod (a b : Int) : Except PyErr Int :=
  if b = 0 then .error .zeroDivisionError else .ok (a % b)

/-- `strptime` of the evaluator: `ValueError` propagates (nothing catches
it inside `draw_events_for_date`). -/
def strptimeD (s : String) : Except PyErr Date :=
  match parseDate s with
  | some d => .ok d
  | none => .error .valueError

/-- Parse of the optional `end_date` field (lines 199-202 of the source). -/
def parseEndDate : Option String → Except PyErr (Option Date)
  | none => .ok none
  | some s =>
    match parseDate s with
    | some d => .ok (some d)
    | none => .error .valueError

/-- The end-date half of the range check on line 207:
`end_date_obj is None or current_date_obj <= end_date_obj`. -/
def withinEnd (cur : Date) : Option Date → Bool
  | none => true
  | some en => Date.ble cur en

/-- The cadence dispatch of lines 213-227, after `recurrence_num` and
`recurrence_unit` have been extracted: weekly compares the day difference
modulo `num * 7`, monthly requires equal day-of-month and compares the
month difference modulo `num`, yearly requires equal month and day and
compares the year difference modulo `num`; any other unit appends nothing. -/
def cadenceFires (num : Int) (u : Char) (s cur : Date) : Except PyErr Bool :=
  if u = 'w' then
    match pyMod (cur.ordinal - s.ordinal) (num * 7) with
    | .error er => .error er
    | .ok r => .ok (decide (r = 0))
  else if u = 'm' then
    if cur.day = s.day then
      match pyMod (((cur.year : Int) - s.year) * 12 + ((cur.month : Int) - s.month)) num with
      | .error er => .error er
      | .ok r => .ok (decide (r = 0))
    else .ok false
  else if u = 'y' then
    if cur.month = s.month ∧ cur.day = s.day then
      match pyMod ((cur.year : Int) - s.year) num with
      | .error er => .error er
      | .ok r => .ok (decide (r = 0))
    else .ok false
  else .ok false

/-- Lines 195-227 of the source for one recurring event: parse `start_date`,
the optional `end_date` and the cell's date string; if the date is inside
the event's range, read `recurrence_num = int(recurrence[:-1])` and
`recurrence_unit = recurrence[-1]` and dispatch on the unit; outside the
range nothing is computed and the event does not fire. `Except.ok true`
means the description is appended for this cell. -/
def recurringFires (e : RecurringEvent) (date_str : String) : Except PyErr Bool :=
  match strptimeD e.start_date with
  | .error er => .error er
  | .ok s =>
    match parseEndDate e.end_date with
    | .error er => .error er
    | .ok endD =>
      match strptimeD date_str with
      | .error er => .error er
      | .ok cur =>
        if Date.ble s cur && withinEnd cur endD then
          match pyInt e.recurrence.data.dropLast with
          | .error er => .error er
          | .ok num =>
            match e.recurrence.data.getLast? with
            | none => .error .indexError
            | some u => cadenceFires num u s cur
        else .ok false

/-- The recurring-events loop of lines 194-227: one pass in configuration
order, appending the description of every rule that fires; a raised
exception aborts the loop. -/
def recurLoop : List RecurringEvent → String → Except PyErr (List String)
  | [], _ => .ok []
  | e :: rest, ds =>
    match recurringFires e ds with
    | .error er => .error er
    | .ok b =>
      match recurLoop rest ds with
      | .error er => .error er
      | .ok tail => .ok (if b then e.description :: tail else tail)

/-- The event-collection part of `draw_events_for_date` (lines 185-227):
`event_strings` is the descriptions of the single events whose `date` field
equals the cell's date string (string `==`, lines 188-191), followed by the
descriptions of the recurring events that fire. -/
def collectEventStrings (events : Events) (date_str : String) : Except PyErr (List String) :=
  match recurLoop events.recurring_events date_str with
  | .error er => .error er
  | .ok recs =>
    .ok ((events.single_events.filter (fun ev => ev.date == date_str)).map
          (fun ev => ev.description) ++ recs)

/-- Decimal digits of `n`, most significant first, prepended to `acc`; the
first argument is structural fuel (`fuel >= n` suffices, as `n` has at most
`n` digits for `n >= 1`). -/
def natDigitsAux : Nat → Nat → List Char → List Char
  | 0, _, acc => acc
  | fuel + 1, n, acc =>
    if n = 0 then acc else natDigitsAux fuel (n / 10) (Char.ofNat (48 + n % 10) :: acc)

/-- Decimal rendering of a natural number (`str(n)` / `f"{n}"` in Python). -/
def natDigits (n : Nat) : List Char :=
  if n = 0 then ['0'] else natDigitsAux n n []

/-- Python `f"{n:02}"`: zero-pad to width 2. -/
def pad2 (n : Nat) : List Char :=
  if n < 10 then '0' :: natDigits n else natDigits n

/-- The cell date string built on line 164 of the source:
`f"{year}-{month:02}-{day:02}"`. -/
def formatDate (year month day : Nat) : String :=
  ⟨natDigits year ++ '-' :: pad2 month ++ '-' :: pad2 day⟩

example : formatDate 2025 2 14 = "2025-02-14" := by decide
example : formatDate 2025 12 3 = "2025-12-03" := by decide
example : recurringFires ⟨"2w", "2025-01-06", none, "E"⟩ "2025-01-20" = .ok true := by decide
example : recurringFires ⟨"2w", "2025-01-06", none, "E"⟩ "2025-01-13" = .ok false := by decide
example : recurringFires ⟨"2w", "2025-01-06", none, "E"⟩ "2025-02-03" = .ok true := by decide
example : recurringFires ⟨"1m", "2025-01-31", none, "E"⟩ "2025-04-30" = .ok false := by decide
example : recurringFires ⟨"1m", "2025-01-15", none, "E"⟩ "2025-03-15" = .ok true := by decide
example : recurringFires ⟨"1w", "2025-01-06", some "2025-03-31", "E"⟩ "2025-04-07" = .ok false := by decide
example : recurringFires ⟨"0w", "2025-01-01", none, "E"⟩ "2025-01-08" = .error .zeroDivisionError := by decide
example : recurringFires ⟨"1y", "2024-02-14", none, "E"⟩ "2026-02-14" = .ok true := by decide
example : recurringFires ⟨"1y", "2024-02-14", none, "E"⟩ "2025-03-14" = .ok false := by decide

/-- The values `yaml.safe_load` can hand to `validate_config` (strings,
integers, lists, string-keyed mappings, and `None`). -/
inductive Yaml where
  | str : String → Yaml
  | int : Int → Yaml
  | list : List Yaml → Yaml
  | map : List (String × Yaml) → Yaml
  | null : Yaml

/-- First-match lookup in a mapping (Python dict keys are unique, so this
is plain dict lookup). -/
def ylookup : List (String × Yaml) → String → Option Yaml
  | [], _ => none
  | (k, v) :: rest, key => if k = key then some v else ylookup rest key

/-- Python `key in c`: key membership for a dict, element equality for a
list, substring test for a string; for an integer or `None` it raises
`TypeError` (the argument is not iterable). -/
def pyContains (key : String) : Yaml → Except PyErr Bool
  | .map kvs => .ok (ylookup kvs key).isSome
  | .list xs => .ok (xs.any (fun y => match y with | .str s => s == key | _ => false))
  | .str s => .ok (s.data.tails.any (fun t => key.data.isPrefixOf t))
  | .int _ => .error .typeError
  | .null => .error .typeError

/-- Python `c[key]` for a string key: dict lookup (`KeyError` when absent);
on a list, a string or an integer it raises `TypeError` (indices must be
integers / not subscriptable). -/
def pyGetItem (c : Yaml) (key : String) : Except PyErr Yaml :=
  match c with
  | .map kvs =>
    match ylookup kvs key with
    | some v => .ok v
    | none => .error .keyError
  | _ => .error .typeError

/-- Decimal rendering of a Python integer. -/
def intRepr (n : Int) : String :=
  if n < 0 then ⟨'-' :: natDigits n.natAbs⟩ else ⟨natDigits n.natAbs⟩

mutual

/-- Python `repr` of a parsed-config value (`str` falls back to this inside
containers). -/
def pyRepr : Yaml → String
  | .str s => "'" ++ s ++ "'"
  | .int n => intRepr n
  | .null => "None"
  | .list xs => "[" ++ String.intercalate ", " (pyReprList xs) ++ "]"
  | .map kvs => "\x7b" ++ String.intercalate ", " (pyReprMap kvs) ++ "\x7d"

/-- `repr` of the elements of a list, in order. -/
def pyReprList : List Yaml → List String
  | [] => []
  | x :: xs => pyRepr x :: pyReprList xs

/-- `repr` of the entries of a dict, in order. -/
def pyReprMap : List (String × Yaml) → List String
  | [] => []
  | (k, v) :: xs => ("'" ++ k ++ "': " ++ pyRepr v) :: pyReprMap xs

end

/-- Python `str` / f-string interpolation of a parsed-config value: a string
interpolates as itself, everything else as its `repr`. -/
def pyStr : Yaml → String
  | .str s => s
  | y => pyRepr y

/-- Python `l.isdigit()`: nonempty and every character a decimal digit. -/
def isPyDigits (l : List Char) : Bool := !l.isEmpty && l.all Char.isDigit

/-- The recurrence-token test of line 73 of the source, in positive form: the
value is a string, `endswith('w'/'m'/'y')` (its last character is one of the
three units), and the string minus its last character satisfies `isdigit()`.
The error is reported exactly when this is false. -/
def recurrenceTokenOk : Yaml → Bool
  | .str s =>
    (match s.data.getLast? with
     | some c => c == 'w' || c == 'm' || c == 'y'
     | none => false) && isPyDigits s.data.dropLast
  | _ => false

/-- Lines 35-37 of the source: each entry of `months_to_print` must satisfy
`is_valid_date(month_str + "-01")`; concatenating `"-01"` to a non-string
entry raises `TypeError` before `is_valid_date` runs. -/
def validateMonthList : List Yaml → Except PyErr (List String)
  | [] => .ok []
  | m :: rest =>
    match m with
    | .str s =>
      match validateMonthList rest with
      | .error er => .error er
      | .ok r =>
        .ok ((if isValidDate (s ++ "-01") then []
              else ["Invalid month format: '" ++ s ++ "'. Use '%Y-%m'."]) ++ r)
    | _ => .error .typeError

/-- Lines 32-37 of the source: `months_to_print` must be a list, and then
each entry is checked. -/
def validateMonths (v : Yaml) : Except PyErr (List String) :=
  match v with
  | .list xs => validateMonthList xs
  | _ => .ok ["'months_to_print' must be a list."]

/-- Lines 50-59 of the source for one entry of `single_events`: it must be a
dict with `date` and `description` keys; `is_valid_date(event['date'])`
raises `TypeError` on a non-string date (only `ValueError` is caught); a
non-string description is reported, interpolated with `str`. -/
def validateSingle : Yaml → Except PyErr (List String)
  | .map kvs =>
    if (ylookup kvs "date").isSome && (ylookup kvs "description").isSome then
      match ((match ylookup kvs "date" with
             | some (.str s) =>
               .ok (if isValidDate s then []
                    else ["Invalid date format: '" ++ s ++ "'. Use '%Y-%m-%d'."])
             | _ => .error .typeError) : Except PyErr (List String)) with
      | .error er => .error er
      | .ok d1 =>
        .ok (d1 ++ (match ylookup kvs "description" with
                    | some (.str _) => []
                    | some other => ["Description must be a string: '" ++ pyStr other ++ "'."]
                    | none => []))
    else .ok ["Each single event must have 'date' and 'description' keys."]
  | _ => .ok ["Each entry in 'single_events' must be a dictionary."]

/-- The `single_events` loop of lines 49-59. -/
def validateSingleList : List Yaml → Except PyErr (List String)
  | [] => .ok []
  | e :: rest =>
    match validateSingle e with
    | .error er => .error er
    | .ok errs =>
      match validateSingleList rest with
      | .error er => .error er
      | .ok r => .ok (errs ++ r)

/-- Lines 67-80 of the source for one entry of `recurring_events`: it must
be a dict with `recurrence`, `start_date` and `description` keys; the
recurrence token is checked by `recurrenceTokenOk` (a non-string token is
reported, not raised, because `isinstance` is tested first);
`is_valid_date` on a non-string `start_date`/`end_date` raises `TypeError`;
a non-string description is reported. -/
def validateRecurring : Yaml → Except PyErr (List String)
  | .map kvs =>
    if (ylookup kvs "recurrence").isSome && (ylookup kvs "start_date").isSome
        && (ylookup kvs "description").isSome then
      let r1 := match ylookup kvs "recurrence" with
                | some rv =>
                  if recurrenceTokenOk rv then []
                  else ["Invalid recurrence format: '" ++ pyStr rv ++ "'. Use 'nW', 'nM', or 'nY'."]
                | none => []
      match ((match ylookup kvs "start_date" with
             | some (.str s) =>
               .ok (if isValidDate s then []
                    else ["Invalid start_date format: '" ++ s ++ "'. Use '%Y-%m-%d'."])
             | _ => .error .typeError) : Except PyErr (List String)) with
      | .error er => .error er
      | .ok r2 =>
        match ((match ylookup kvs "end_date" with
               | some (.str s) =>
                 .ok (if isValidDate s then []
                      else ["Invalid end_date format: '" ++ s ++ "'. Use '%Y-%m-%d'."])
               | some _ => .error .typeError
               | none => .ok []) : Except PyErr (List String)) with
        | .error er => .error er
        | .ok r3 =>
          .ok (r1 ++ r2 ++ r3 ++ (match ylookup kvs "description" with
                                  | some (.str _) => []
                                  | some other => ["Description must be a string: '" ++ pyStr other ++ "'."]
                                  | none => []))
    else .ok ["Each recurring event must have 'recurrence', 'start_date', and 'description' keys."]
  | _ => .ok ["Each entry in 'recurring_events' must be a dictionary."]

/-- The `recurring_events` loop of lines 66-80. -/
def validateRecurringList : List Yaml → Except PyErr (List String)
  | [] => .ok []
  | e :: rest =>
    match validateRecurring e with
    | .error er => .error er
    | .ok errs =>
      match validateRecurringList rest with
      | .error er => .error er
      | .ok r => .ok (errs ++ r)

/-- Lines 40-80 of the source: `events` must be a dict; its optional
`single_events` and `recurring_events` keys must each hold a list, whose
entries are then checked. -/
def validateEvents : Yaml → Except PyErr (List String)
  | .map ekvs =>
    match ((match ylookup ekvs "single_events" with
           | some (.list xs) => validateSingleList xs
           | some _ => .ok ["'single_events' must be a list."]
           | none => .ok []) : Except PyErr (List String)) with
    | .error er => .error er
    | .ok s1 =>
      match ((match ylookup ekvs "recurring_events" with
             | some (.list xs) => validateRecurringList xs
             | some _ => .ok ["'recurring_events' must be a list."]
             | none => .ok []) : Except PyErr (List String)) with
      | .error er => .error er
      | .ok s2 => .ok (s1 ++ s2)
  | _ => .ok ["'events' must be a dictionary."]

/-- `validate_config` (lines 20-83 of the source): report the two missing
top-level keys, then check `months_to_print`, then `events`, concatenating
the collected error strings; any `TypeError` raised along the way
propagates out (the function catches nothing). -/
def validate_config (config : Yaml) : Except PyErr (List String) :=
  match pyContains "months_to_print" config with
  | .error er => .error er
  | .ok hasM =>
    match pyContains "events" config with
    | .error er => .error er
    | .ok hasE =>
      let e0 := (if hasM then [] else ["Missing 'months_to_print' key in config file."])
                ++ (if hasE then [] else ["Missing 'events' key in config file."])
      match ((if hasM then
               match pyGetItem config "months_to_print" with
               | .error er => .error er
               | .ok v => validateMonths v
             else .ok []) : Except PyErr (List String)) with
      | .error er => .error er
      | .ok e1 =>
        match ((if hasE then
                 match pyGetItem config "events" with
                 | .error er => .error er
                 | .ok v => validateEvents v
               else .ok []) : Except PyErr (List String)) with
        | .error er => .error er
        | .ok e2 => .ok (e0 ++ e1 ++ e2)

example : validate_config (.map []) =
    .ok ["Missing 'months_to_print' key in config file.", "Missing 'events' key in config file."] := by
  decide
example : validate_config (.int 7) = .error .typeError := by decide
example : validate_config (.map [("months_to_print", .list [.int 2025]), ("events", .map [])]) =
    .error .typeError := by decide
example : validate_config (.map [("months_to_print", .list [.str "2025-01"]),
    ("events", .map [("recurring_events",
      .list [.map [("recurrence", .str "0w"), ("start_date", .str "2025-01-01"),
                   ("description", .str "Z")]])])]) = .ok [] := by decide
example : validate_config (.map [("months_to_print", .list [.str "2025-01"]),
    ("events", .map [("recurring_events",
      .list [.map [("recurrence", .str "3x"), ("start_date", .str "2025-01-01"),
                   ("description", .str "Z")]])])]) =
    .ok ["Invalid recurrence format: '3x'. Use 'nW', 'nM', or 'nY'."] := by decide

/-- Split a flat list into weeks of 7 (how `monthdayscalendar` slices the
day list produced by `itermonthdays`); fewer than 7 trailing elements would
form a short last week, which never happens for the inputs built below. -/
def chunks7 : List Nat → List (List Nat)
  | [] => []
  | a :: b :: c :: d :: e :: f :: g :: rest => [a, b, c, d, e, f, g] :: chunks7 rest
  | l => [l]

/-- `calendar.Calendar(firstweekday=6).monthdayscalendar(year, month)` (used
on lines 148-149 of the source): the in-month day numbers `1..n`, preceded
by one `0` for each weekday of the first partial week before day 1 and
followed by `0`s completing the last week, sliced into weeks of 7.  With
Sunday as the first weekday the number of leading zeros is the Sunday-based
weekday index of day 1, which is `toOrdinal y m 1 % 7` (ordinal 1,
0001-01-01, was a Monday, so ordinals divisible by 7 are Sundays). -/
def monthdayscalendar (y m : Nat) : List (List Nat) :=
  chunks7 (List.replicate (toOrdinal y m 1 % 7) 0
    ++ (List.range (daysInMonth y m)).map (· + 1)
    ++ List.replicate ((7 - (toOrdinal y m 1 % 7 + daysInMonth y m) % 7) % 7) 0)

example : monthdayscalendar 2025 1 =
    [[0, 0, 0, 1, 2, 3, 4], [5, 6, 7, 8, 9, 10, 11], [12, 13, 14, 15, 16, 17, 18],
     [19, 20, 21, 22, 23, 24, 25], [26, 27, 28, 29, 30, 31, 0]] := by decide
example : monthdayscalendar 2025 2 =
    [[0, 0, 0, 0, 0, 0, 1], [2, 3, 4, 5, 6, 7, 8], [9, 10, 11, 12, 13, 14, 15],
     [16, 17, 18, 19, 20, 21, 22], [23, 24, 25, 26, 27, 28, 0]] := by decide
example : monthdayscalendar 2024 2 =
    [[0, 0, 0, 0, 1, 2, 3], [4, 5, 6, 7, 8, 9, 10], [11, 12, 13, 14, 15, 16, 17],
     [18, 19, 20, 21, 22, 23, 24], [25, 26, 27, 28, 29, 0, 0]] := by decide
example : monthdayscalendar 2026 2 =
    [[1, 2, 3, 4, 5, 6, 7], [8, 9, 10, 11, 12, 13, 14], [15, 16, 17, 18, 19, 20, 21],
     [22, 23, 24, 25, 26, 27, 28]] := by decide

/-- Reduction of `recurringFires` once the three date strings parse and the
date lies inside the event's range: the result is the cadence dispatch on
the parsed recurrence number and unit. -/
theorem recurringFires_reduce (e : RecurringEvent) (ds : String) (s cur : Date)
    (endD : Option Date) (num : Int) (u : Char)
    (hstart : strptimeD e.start_date = .ok s)
    (hend : parseEndDate e.end_date = .ok endD)
    (hcur : strptimeD ds = .ok cur)
    (hin : (Date.ble s cur && withinEnd cur endD) = true)
    (hnum : pyInt e.recurrence.data.dropLast = .ok num)
    (hu : e.recurrence.data.getLast? = some u) :
    recurringFires e ds = cadenceFires num u s cur := by
  simp only [recurringFires, hstart, hend, hcur, hin, hnum, hu, if_true]

/-- Reduction of `recurringFires` when the date lies outside the range. -/
theorem recurringFires_outOfRange (e : RecurringEvent) (ds : String) (s cur : Date)
    (endD : Option Date)
    (hstart : strptimeD e.start_date = .ok s)
    (hend : parseEndDate e.end_date = .ok endD)
    (hcur : strptimeD ds = .ok cur)
    (hin : (Date.ble s cur && withinEnd cur endD) = false) :
    recurringFires e ds = .ok false := by
  simp only [recurringFires, hstart, hend, hcur, hin, Bool.false_eq_true, if_false]

/-- C1: for a recurring event whose token parses to count `n > 0` with unit
`'w'`, and an in-range date (start_date <= d, end_date absent or
d <= end_date), the evaluator fires exactly when the day difference
`d - start_date` is divisible by `n * 7`. -/
theorem weekly_recurrence_membership (e : RecurringEvent) (ds : String)
    (n : Int) (s cur : Date) (endD : Option Date)
    (hn : 0 < n)
    (hnum : pyInt e.recurrence.data.dropLast = .ok n)
    (hu : e.recurrence.data.getLast? = some 'w')
    (hstart : strptimeD e.start_date = .ok s)
    (hend : parseEndDate e.end_date = .ok endD)
    (hcur : strptimeD ds = .ok cur)
    (hlo : Date.ble s cur = true)
    (hhi : withinEnd cur endD = true) :
    recurringFires e ds = .ok true ↔ (n * 7) ∣ (cur.ordinal - s.ordinal) := by
  have hin : (Date.ble s cur && withinEnd cur endD) = true := by rw [hlo, hhi]; rfl
  rw [recurringFires_reduce e ds s cur endD n 'w' hstart hend hcur hin hnum hu]
  have h7 : (n * 7 : Int) ≠ 0 := by omega
  unfold cadenceFires
  rw [if_pos (rfl : ('w' : Char) = 'w')]
  unfold pyMod
  rw [if_neg h7]
  simp only [Except.ok.injEq, decide_eq_true_eq]
  rw [Int.dvd_iff_emod_eq_zero]

/-- C1 witness: the spec's `2w` rule anchored at 2025-01-06, evaluated at
2025-01-20, fires (14 days elapsed, divisible by 14). -/
theorem weekly_recurrence_membership_witness :
    recurringFires ⟨"2w", "2025-01-06", none, "E"⟩ "2025-01-20" = .ok true :=
  (weekly_recurrence_membership ⟨"2w", "2025-01-06", none, "E"⟩ "2025-01-20"
      2 ⟨2025, 1, 6⟩ ⟨2025, 1, 20⟩ none (by decide) (by decide) (by decide)
      (by decide) (by decide) (by decide) (by decide) (by decide)).mpr (by decide)

/-- C2: for a recurring event whose token parses to count `n > 0` with unit
`'m'`, and an in-range date, the evaluator fires exactly when the
day-of-month equals the start day-of-month and the month difference
`(y - y0) * 12 + (m - m0)` is divisible by `n`. -/
theorem monthly_recurrence_membership (e : RecurringEvent) (ds : String)
    (n : Int) (s cur : Date) (endD : Option Date)
    (hn : 0 < n)
    (hnum : pyInt e.recurrence.data.dropLast = .ok n)
    (hu : e.recurrence.data.getLast? = some 'm')
    (hstart : strptimeD e.start_date = .ok s)
    (hend : parseEndDate e.end_date = .ok endD)
    (hcur : strptimeD ds = .ok cur)
    (hlo : Date.ble s cur = true)
    (hhi : withinEnd cur endD = true) :
    recurringFires e ds = .ok true ↔
      (cur.day = s.day ∧
        n ∣ (((cur.year : Int) - s.year) * 12 + ((cur.month : Int) - s.month))) := by
  have hin : (Date.ble s cur && withinEnd cur endD) = true := by rw [hlo, hhi]; rfl
  rw [recurringFires_reduce e ds s cur endD n 'm' hstart hend hcur hin hnum hu]
  have hn0 : (n : Int) ≠ 0 := by omega
  unfold cadenceFires
  rw [if_neg (show ¬ (('m' : Char) = 'w') by decide), if_pos (rfl : ('m' : Char) = 'm')]
  by_cases hd : cur.day = s.day
  · rw [if_pos hd]
    unfold pyMod
    rw [if_neg hn0]
    simp only [Except.ok.injEq, decide_eq_true_eq]
    rw [Int.dvd_iff_emod_eq_zero]
    exact ⟨fun h => ⟨hd, h⟩, fun h => h.2⟩
  · rw [if_neg hd]
    constructor
    · intro h
      exact absurd (Except.ok.inj h) (by decide)
    · intro h
      exact absurd h.1 hd

/-- C2 witness: the spec's `1m` rule anchored at 2025-01-15 fires on
2025-02-15 (day-of-month matches, one month elapsed). -/
theorem monthly_recurrence_membership_witness :
    recurringFires ⟨"1m", "2025-01-15", none, "E"⟩ "2025-02-15" = .ok true :=
  (monthly_recurrence_membership ⟨"1m", "2025-01-15", none, "E"⟩ "2025-02-15"
      1 ⟨2025, 1, 15⟩ ⟨2025, 2, 15⟩ none (by decide) (by decide) (by decide)
      (by decide) (by decide) (by decide) (by decide) (by decide)).mpr
    ⟨rfl, by decide⟩

/-- C4: once the three date strings parse, a date before the start date, or
after a present end date, makes the evaluator return false without touching
the recurrence token (no hypothesis constrains `e.recurrence`). -/
theorem recurrence_range_precondition (e : RecurringEvent) (ds : String)
    (s cur : Date) (endD : Option Date)
    (hstart : strptimeD e.start_date = .ok s)
    (hend : parseEndDate e.end_date = .ok endD)
    (hcur : strptimeD ds = .ok cur)
    (hout : Date.ble s cur = false ∨ withinEnd cur endD = false) :
    recurringFires e ds = .ok false := by
  apply recurringFires_outOfRange e ds s cur endD hstart hend hcur
  rcases hout with h | h
  · rw [h]; rfl
  · rw [h, Bool.and_false]

/-- C4 witness: the spec's end-date example, an event ending 2025-03-31
evaluated at 2025-04-07, does not fire even though the weekly arithmetic
matches (and here the recurrence token is even left malformed). -/
theorem recurrence_range_precondition_witness :
    recurringFires ⟨"", "2025-01-06", some "2025-03-31", "E"⟩ "2025-04-07" = .ok false :=
  recurrence_range_precondition ⟨"", "2025-01-06", some "2025-03-31", "E"⟩ "2025-04-07"
    ⟨2025, 1, 6⟩ ⟨2025, 4, 7⟩ (some ⟨2025, 3, 31⟩)
    (by decide) (by decide) (by decide) (Or.inr (by decide))

/-- Whether an `Except` computation succeeded. -/
def exceptIsOk {ε α : Type} : Except ε α → Bool
  | .ok _ => true
  | .error _ => false

/-- Whether a recurring event fires on the date string (false whenever its
evaluation raises). -/
def firesB (e : RecurringEvent) (ds : String) : Bool :=
  match recurringFires e ds with
  | .ok b => b
  | .error _ => false

/-- When every rule evaluates without an exception, the recurring-events
loop returns exactly the descriptions of the firing rules, in input order. -/
theorem recurLoop_ok (ds : String) (l : List RecurringEvent)
    (h : ∀ e ∈ l, exceptIsOk (recurringFires e ds) = true) :
    recurLoop l ds = .ok ((l.filter (fun e => firesB e ds)).map (fun e => e.description)) := by
  induction l with
  | nil => rfl
  | cons e rest ih =>
    have he := h e (List.mem_cons_self e rest)
    have hrest : ∀ x ∈ rest, exceptIsOk (recurringFires x ds) = true :=
      fun x hx => h x (List.mem_cons_of_mem e hx)
    cases hfe : recurringFires e ds with
    | error er => rw [hfe] at he; exact absurd he (by simp [exceptIsOk])
    | ok b =>
      unfold recurLoop
      rw [hfe, ih hrest, List.filter_cons]
      have hb : firesB e ds = b := by unfold firesB; rw [hfe]
      rw [hb]
      cases b <;> simp

/-- C5: when every recurring rule evaluates cleanly on date `ds`, the
resolved list for `ds` is exactly the descriptions of the single events
whose `date` field equals `ds`, in configuration order, followed by the
descriptions of the recurring events that fire on `ds`, in configuration
order — plain filters of the two input lists, with no de-duplication and
no reordering. -/
theorem day_resolver_stacking (events : Events) (ds : String)
    (h : ∀ e ∈ events.recurring_events, exceptIsOk (recurringFires e ds) = true) :
    collectEventStrings events ds =
      .ok ((events.single_events.filter (fun ev => ev.date == ds)).map
            (fun ev => ev.description)
          ++ (events.recurring_events.filter (fun e => firesB e ds)).map
            (fun e => e.description)) := by
  unfold collectEventStrings
  rw [recurLoop_ok ds events.recurring_events h]

/-- C5 witness: the spec's stacking example — one single event and two
recurring events all active on 2025-02-03, in that configuration order,
resolve to their three descriptions in that exact order. -/
theorem day_resolver_stacking_witness :
    collectEventStrings
      ⟨[⟨"2025-02-03", "Single"⟩],
       [⟨"1w", "2025-02-03", none, "RecurA"⟩, ⟨"4w", "2025-01-06", none, "RecurB"⟩]⟩
      "2025-02-03" = .ok ["Single", "RecurA", "RecurB"] :=
  (day_resolver_stacking
      ⟨[⟨"2025-02-03", "Single"⟩],
       [⟨"1w", "2025-02-03", none, "RecurA"⟩, ⟨"4w", "2025-01-06", none, "RecurB"⟩]⟩
      "2025-02-03" (by decide)).trans (by decide)

/-- A digit character is not the separator `'-'`. -/
theorem digitChar_ne_dash (k : Nat) (hk : k < 10) : Char.ofNat (48 + k) ≠ '-' := by
  interval_cases k <;> decide

/-- One step of the digit renderer on a nonzero number. -/
theorem natDigitsAux_succ (f n : Nat) (acc : List Char) (hn : n ≠ 0) :
    natDigitsAux (f + 1) n acc = natDigitsAux f (n / 10) (Char.ofNat (48 + n % 10) :: acc) := by
  simp only [natDigitsAux, if_neg hn]

/-- The digit renderer only ever prepends digit characters. -/
theorem natDigitsAux_no_dash (fuel : Nat) :
    ∀ (n : Nat) (acc : List Char), '-' ∉ acc → '-' ∉ natDigitsAux fuel n acc := by
  induction fuel with
  | zero => intro n acc h; simpa [natDigitsAux] using h
  | succ f ih =>
    intro n acc h
    by_cases hn : n = 0
    · simpa [natDigitsAux, if_pos hn] using h
    · rw [natDigitsAux_succ f n acc hn]
      apply ih
      intro hc
      rcases List.mem_cons.mp hc with hc | hc
      · exact digitChar_ne_dash (n % 10) (Nat.mod_lt n (by decide)) hc.symm
      · exact h hc

/-- The digit renderer never shortens its accumulator. -/
theorem natDigitsAux_len (fuel : Nat) :
    ∀ (n : Nat) (acc : List Char), acc.length ≤ (natDigitsAux fuel n acc).length := by
  induction fuel with
  | zero => intro n acc; simp [natDigitsAux]
  | succ f ih =>
    intro n acc
    by_cases hn : n = 0
    · simp [natDigitsAux, if_pos hn]
    · rw [natDigitsAux_succ f n acc hn]
      exact le_trans (by simp) (ih (n / 10) _)

/-- The decimal rendering of a natural number contains no `'-'`. -/
theorem natDigits_no_dash (n : Nat) : '-' ∉ natDigits n := by
  unfold natDigits
  by_cases h : n = 0
  · rw [if_pos h]; decide
  · rw [if_neg h]
    exact natDigitsAux_no_dash n n [] (by simp)

/-- The decimal rendering of a natural number is nonempty. -/
theorem natDigits_len_pos (n : Nat) : 1 ≤ (natDigits n).length := by
  unfold natDigits
  by_cases h : n = 0
  · rw [if_pos h]; decide
  · rw [if_neg h]
    obtain ⟨k, rfl⟩ : ∃ k, n = k + 1 := ⟨n - 1, by omega⟩
    rw [natDigitsAux_succ k (k + 1) [] h]
    exact le_trans (by simp) (natDigitsAux_len k ((k + 1) / 10) _)

/-- A zero-padded two-digit field contains no `'-'`. -/
theorem pad2_no_dash (n : Nat) : '-' ∉ pad2 n := by
  unfold pad2
  by_cases h : n < 10
  · rw [if_pos h]
    intro hc
    rcases List.mem_cons.mp hc with hc | hc
    · exact absurd hc (by decide)
    · exact natDigits_no_dash n hc
  · rw [if_neg h]
    exact natDigits_no_dash n

/-- A zero-padded two-digit field has at least two characters. -/
theorem pad2_len (n : Nat) : 2 ≤ (pad2 n).length := by
  unfold pad2
  by_cases h : n < 10
  · rw [if_pos h]
    have := natDigits_len_pos n
    simp only [List.length_cons]
    omega
  · rw [if_neg h]
    unfold natDigits
    rw [if_neg (by omega : ¬ (n = 0))]
    obtain ⟨j, rfl⟩ : ∃ j, n = j + 2 := ⟨n - 2, by omega⟩
    rw [natDigitsAux_succ (j + 1) (j + 2) [] (by omega)]
    rw [natDigitsAux_succ j ((j + 2) / 10) _ (by omega)]
    exact le_trans (by simp) (natDigitsAux_len j (((j + 2) / 10) / 10) _)

/-- Splitting at the first `'-'` is unambiguous: dash-free prefixes before a
dash agree, and so do the tails. -/
theorem splitDash (A : List Char) :
    ∀ (B r s : List Char), '-' ∉ A → '-' ∉ B →
      A ++ '-' :: r = B ++ '-' :: s → A = B ∧ r = s := by
  induction A with
  | nil =>
    intro B r s _ hB h
    cases B with
    | nil =>
      refine ⟨rfl, ?_⟩
      simpa using h
    | cons b B2 =>
      exfalso
      simp only [List.nil_append, List.cons_append] at h
      exact hB (List.mem_cons.mpr (Or.inl (List.cons.inj h).1))
  | cons a A2 ih =>
    intro B r s hA hB h
    cases B with
    | nil =>
      exfalso
      simp only [List.cons_append, List.nil_append] at h
      exact hA (List.mem_cons.mpr (Or.inl (List.cons.inj h).1.symm))
    | cons b B2 =>
      simp only [List.cons_append] at h
      have h1 := (List.cons.inj h).1
      have hA2 : '-' ∉ A2 := fun hc => hA (List.mem_cons_of_mem a hc)
      have hB2 : '-' ∉ B2 := fun hc => hB (List.mem_cons_of_mem b hc)
      obtain ⟨hAB, hrs⟩ := ih B2 r s hA2 hB2 (List.cons.inj h).2
      exact ⟨by rw [h1, hAB], hrs⟩

/-- The padded cell date string can never equal the unpadded `"2025-2-14"`:
its month field has at least two characters. -/
theorem formatDate_ne_unpadded (y m d : Nat) : formatDate y m d ≠ "2025-2-14" := by
  intro h
  have hd0 : (natDigits y ++ '-' :: pad2 m) ++ '-' :: pad2 d = "2025-2-14".data :=
    congrArg String.data h
  have hlit : "2025-2-14".data = ['2', '0', '2', '5', '-', '2', '-', '1', '4'] := rfl
  rw [hlit] at hd0
  have hd1 : natDigits y ++ '-' :: (pad2 m ++ '-' :: pad2 d)
      = ['2', '0', '2', '5'] ++ '-' :: (['2'] ++ '-' :: ['1', '4']) := by
    simp only [List.cons_append, List.append_assoc] at hd0 ⊢
    exact hd0
  obtain ⟨h1, h2⟩ := splitDash (natDigits y) ['2', '0', '2', '5'] _ _
    (natDigits_no_dash y) (by decide) hd1
  obtain ⟨h3, _⟩ := splitDash (pad2 m) ['2'] _ _ (pad2_no_dash m) (by decide) h2
  have hlen := pad2_len m
  rw [h3] at hlen
  exact absurd hlen (by decide)

/-- C10: a single event attaches to the day cell (y, m, d) exactly when its
`date` field equals the zero-padded cell string `f"{year}-{month:02}-{day:02}"`
character for character (the filter used by `collectEventStrings`); hence an
event whose date is the unpadded `"2025-2-14"` — which `is_valid_date`
accepts — matches no cell string and resolves to nothing on any grid. -/
theorem single_event_exact_match (ev : SingleEvent) (y m d : Nat) :
    ((ev.date == formatDate y m d) = true ↔ ev.date = formatDate y m d)
    ∧ (ev.date = "2025-2-14" →
        (ev.date == formatDate y m d) = false
        ∧ collectEventStrings ⟨[ev], []⟩ (formatDate y m d) = .ok [])
    ∧ isValidDate "2025-2-14" = true := by
  refine ⟨beq_iff_eq, fun hdate => ?_, by decide⟩
  have hne : ev.date ≠ formatDate y m d := by
    rw [hdate]
    exact fun hc => formatDate_ne_unpadded y m d hc.symm
  have hbeq : (ev.date == formatDate y m d) = false := beq_eq_false_iff_ne.mpr hne
  refine ⟨hbeq, ?_⟩
  unfold collectEventStrings recurLoop
  rw [List.filter_cons, hbeq]
  rfl

/-- C10 witness: the event dated `"2025-2-14"` does not attach to the
February 14, 2025 cell. -/
theorem single_event_exact_match_witness :
    ((⟨"2025-2-14", "V"⟩ : SingleEvent).date == formatDate 2025 2 14) = false
    ∧ collectEventStrings ⟨[⟨"2025-2-14", "V"⟩], []⟩ (formatDate 2025 2 14) = .ok [] :=
  (single_event_exact_match ⟨"2025-2-14", "V"⟩ 2025 2 14).2.1 rfl

/-- The token test of line 73 accepts exactly the strings made of one or
more characters satisfying `isdigit` followed by one unit letter `w`, `m`
or `y` — with no constraint on the value of the digit run (an all-zero run
passes). -/
theorem recurrenceTokenOk_iff (tok : String) :
    recurrenceTokenOk (.str tok) = true ↔
      ∃ ds u, tok.data = ds ++ [u] ∧ ds ≠ [] ∧ (∀ c ∈ ds, c.isDigit = true)
        ∧ (u = 'w' ∨ u = 'm' ∨ u = 'y') := by
  have hrw : recurrenceTokenOk (.str tok) =
      ((match tok.data.getLast? with
        | some c => c == 'w' || c == 'm' || c == 'y'
        | none => false) && isPyDigits tok.data.dropLast) := rfl
  rw [hrw]
  constructor
  · intro h
    rcases hL : tok.data.getLast? with _ | u
    · rw [hL] at h
      simp at h
    · rw [hL] at h
      simp only [Bool.and_eq_true, Bool.or_eq_true, beq_iff_eq] at h
      obtain ⟨hu, hdig⟩ := h
      have hne : tok.data ≠ [] := by
        intro hnil
        rw [hnil] at hL
        exact Option.noConfusion hL
      have hdig2 := hdig
      unfold isPyDigits at hdig2
      simp only [Bool.and_eq_true, List.all_eq_true] at hdig2
      refine ⟨tok.data.dropLast, u, ?_, ?_, hdig2.2, by tauto⟩
      · have hconcat := List.dropLast_concat_getLast hne
        rw [List.getLast?_eq_getLast tok.data hne] at hL
        rw [Option.some.inj hL] at hconcat
        exact hconcat.symm
      · intro hnil
        rw [hnil] at hdig2
        simp at hdig2
  · rintro ⟨ds, u, hds, hne, hdig, hu⟩
    rw [hds, List.getLast?_concat, List.dropLast_concat]
    simp only [Bool.and_eq_true, Bool.or_eq_true, beq_iff_eq]
    refine ⟨by tauto, ?_⟩
    unfold isPyDigits
    simp only [Bool.and_eq_true, List.all_eq_true]
    refine ⟨?_, hdig⟩
    rcases ds with _ | ⟨x, xs⟩
    · exact absurd rfl hne
    · rfl

/-- A configuration whose only defect candidate is the recurrence token
`tok`: an empty month list and one recurring event with a valid start date
and description. -/
def cfgRecTok (tok : String) : Yaml :=
  .map [("months_to_print", .list []),
        ("events", .map [("recurring_events",
          .list [.map [("recurrence", .str tok), ("start_date", .str "2025-01-01"),
                       ("description", .str "D")]])])]

/-- `validateRecurring` on the single event of `cfgRecTok`: the only
possible error is the recurrence-format one. -/
theorem validateRecurring_tok (tok : String) :
    validateRecurring (.map [("recurrence", .str tok), ("start_date", .str "2025-01-01"),
      ("description", .str "D")]) =
      .ok (if recurrenceTokenOk (.str tok) then []
           else ["Invalid recurrence format: '" ++ tok ++ "'. Use 'nW', 'nM', or 'nY'."]) := by
  have hv : isValidDate "2025-01-01" = true := by decide
  cases h : recurrenceTokenOk (Yaml.str tok) <;>
    simp [validateRecurring, ylookup, pyStr, hv, h]

/-- `validate_config` on `cfgRecTok tok`: it reports exactly the
recurrence-format error, and only when the token test fails. -/
theorem validate_cfgRecTok (tok : String) :
    validate_config (cfgRecTok tok) =
      .ok (if recurrenceTokenOk (.str tok) then []
           else ["Invalid recurrence format: '" ++ tok ++ "'. Use 'nW', 'nM', or 'nY'."]) := by
  have hr := validateRecurring_tok tok
  cases h : recurrenceTokenOk (Yaml.str tok) <;>
    rw [h] at hr <;>
    simp [validate_config, cfgRecTok, pyContains, ylookup, pyGetItem, validateMonths,
      validateMonthList, validateEvents, validateRecurringList, hr, h]

/-- C7 counterexample: the token `"0w"` — whose digit run has value 0, not a
positive integer — passes validation with no error at all, although the
claim requires an error for it. -/
theorem zero_stride_token_accepted :
    validate_config (cfgRecTok "0w") = .ok []
    ∧ pyInt ("0w".data.dropLast) = .ok 0 :=
  ⟨by decide, by decide⟩

/-- C7 (amended): `validate_config` reports an error for a recurrence token
exactly when it is not one or more `isdigit` characters followed by exactly
one of `w`/`m`/`y`; the digit run may have any value, including zero — the
code never checks positivity. The reported error names the offending token. -/
theorem recurrence_token_grammar (tok : String) :
    (validate_config (cfgRecTok tok) = .ok [] ↔
      ∃ ds u, tok.data = ds ++ [u] ∧ ds ≠ [] ∧ (∀ c ∈ ds, c.isDigit = true)
        ∧ (u = 'w' ∨ u = 'm' ∨ u = 'y'))
    ∧ (validate_config (cfgRecTok tok) ≠ .ok [] →
        validate_config (cfgRecTok tok) =
          .ok ["Invalid recurrence format: '" ++ tok ++ "'. Use 'nW', 'nM', or 'nY'."]) := by
  have hiff := recurrenceTokenOk_iff tok
  cases h : recurrenceTokenOk (Yaml.str tok)
  · have hv : validate_config (cfgRecTok tok) =
        .ok ["Invalid recurrence format: '" ++ tok ++ "'. Use 'nW', 'nM', or 'nY'."] := by
      rw [validate_cfgRecTok tok]
      simp [h]
    refine ⟨?_, fun _ => hv⟩
    rw [hv]
    constructor
    · intro hc
      exact absurd (Except.ok.inj hc) (by simp)
    · intro hex
      exact absurd (hiff.mpr hex) (by simp [h])
  · have hv : validate_config (cfgRecTok tok) = .ok [] := by
      rw [validate_cfgRecTok tok]
      simp [h]
    refine ⟨?_, fun hc => absurd hv hc⟩
    rw [hv]
    exact ⟨fun _ => hiff.mp h, fun _ => rfl⟩

/-- A configuration missing the `events` key whose invalid recurrence token
`"3x"` sits in a top-level `recurring_events` list (the only place a
recurrence token can live once `events` is absent). -/
def cfgMissingEvents3x : Yaml :=
  .map [("months_to_print", .list [.str "2025-01"]),
        ("recurring_events",
          .list [.map [("recurrence", .str "3x"), ("start_date", .str "2025-01-01"),
                       ("description", .str "X")]])]

/-- C8 counterexample: on a configuration that is missing `events` and
contains the invalid recurrence token `"3x"`, the validator returns exactly
one error — the missing-key one — because recurrence tokens are only
examined under the `events` key; the claimed two distinct errors do not
appear. -/
theorem missing_events_hides_recurrence_error :
    validate_config cfgMissingEvents3x = .ok ["Missing 'events' key in config file."] := by
  decide

/-- A configuration with two independent defects the validator can both
see: `months_to_print` is missing and `events.recurring_events` holds the
invalid token `"3x"`. -/
def cfgTwoDefects : Yaml :=
  .map [("events", .map [("recurring_events",
    .list [.map [("recurrence", .str "3x"), ("start_date", .str "2025-01-01"),
                 ("description", .str "X")]])])]

/-- C8 (amended): a configuration missing `months_to_print` and holding the
invalid recurrence token `"3x"` under `events.recurring_events` yields two
distinct error strings, one per defect, in a single pass. -/
theorem validator_two_defects_two_errors :
    validate_config cfgTwoDefects =
      .ok ["Missing 'months_to_print' key in config file.",
           "Invalid recurrence format: '3x'. Use 'nW', 'nM', or 'nY'."]
    ∧ ("Missing 'months_to_print' key in config file." : String) ≠
        "Invalid recurrence format: '3x'. Use 'nW', 'nM', or 'nY'." :=
  ⟨by decide, by decide⟩

/-- C9: the claim fails on the code — the configuration `cfgRecTok "0w"`
passes validation with no errors, yet evaluating its recurring event on any
in-range date reaches `difference.days % (0 * 7)` and raises
`ZeroDivisionError` (the modulo operand is zero for the accepted token
`"0w"`). -/
theorem validated_zero_stride_divides_by_zero :
    validate_config (cfgRecTok "0w") = .ok []
    ∧ recurringFires ⟨"0w", "2025-01-01", none, "D"⟩ "2025-01-08"
        = .error .zeroDivisionError :=
  ⟨by decide, by decide⟩

/-- Whether a parsed-config value is a string. -/
def isStrB : Yaml → Bool
  | .str _ => true
  | _ => false

/-- An `Except` that is `ok` carries a value. -/
theorem exists_ok_of_isOk {ε α : Type} (x : Except ε α) (h : exceptIsOk x = true) :
    ∃ v, x = .ok v := by
  cases x with
  | ok v => exact ⟨v, rfl⟩
  | error er => simp [exceptIsOk] at h

/-- The single-event shapes on which lines 50-59 raise nothing: when both
keys are present, the `date` value is a string (a non-string date reaches
`strptime` and raises `TypeError`). -/
def wellTypedSingle (e : Yaml) : Bool :=
  match e with
  | .map kvs =>
    if (ylookup kvs "date").isSome && (ylookup kvs "description").isSome then
      match ylookup kvs "date" with
      | some (.str _) => true
      | _ => false
    else true
  | _ => true

/-- The recurring-event shapes on which lines 67-80 raise nothing: when the
three required keys are present, `start_date` and a present `end_date` are
strings (the recurrence and description values may have any type). -/
def wellTypedRecurring (e : Yaml) : Bool :=
  match e with
  | .map kvs =>
    if (ylookup kvs "recurrence").isSome && (ylookup kvs "start_date").isSome
        && (ylookup kvs "description").isSome then
      (match ylookup kvs "start_date" with
       | some (.str _) => true
       | _ => false) &&
      (match ylookup kvs "end_date" with
       | none => true
       | some (.str _) => true
       | some _ => false)
    else true
  | _ => true

/-- The `months_to_print` values on which lines 31-37 raise nothing: a
non-list is merely reported, a list must hold strings (concatenating
`"-01"` to a non-string raises `TypeError`). -/
def wellTypedMonths (v : Yaml) : Bool :=
  match v with
  | .list xs => xs.all isStrB
  | _ => true

/-- The `events` values on which lines 40-80 raise nothing. -/
def wellTypedEvents (v : Yaml) : Bool :=
  match v with
  | .map ekvs =>
    (match ylookup ekvs "single_events" with
     | some (.list xs) => xs.all wellTypedSingle
     | _ => true) &&
    (match ylookup ekvs "recurring_events" with
     | some (.list xs) => xs.all wellTypedRecurring
     | _ => true)
  | _ => true

/-- The configurations on which `validate_config` raises nothing: a mapping
at top level (`'key' in config` raises `TypeError` on an integer or `None`,
and indexing a string or list with a string key raises too), with
well-typed months and events below. -/
def wellTyped (c : Yaml) : Bool :=
  match c with
  | .map kvs =>
    (match ylookup kvs "months_to_print" with
     | some v => wellTypedMonths v
     | none => true) &&
    (match ylookup kvs "events" with
     | some v => wellTypedEvents v
     | none => true)
  | _ => false

/-- The month loop returns (rather than raises) on all-string entries. -/
theorem validateMonthList_isOk (xs : List Yaml) (h : xs.all isStrB = true) :
    exceptIsOk (validateMonthList xs) = true := by
  induction xs with
  | nil => rfl
  | cons x rest ih =>
    simp only [List.all_cons, Bool.and_eq_true] at h
    cases x with
    | str s =>
      have hr := ih h.2
      cases hrest : validateMonthList rest with
      | error er => rw [hrest] at hr; simp [exceptIsOk] at hr
      | ok r => simp [validateMonthList, hrest, exceptIsOk]
    | int n => simp [isStrB] at h
    | list l => simp [isStrB] at h
    | map kvs => simp [isStrB] at h
    | null => simp [isStrB] at h

/-- `validateMonths` returns on a well-typed months value. -/
theorem validateMonths_isOk (v : Yaml) (h : wellTypedMonths v = true) :
    exceptIsOk (validateMonths v) = true := by
  cases v with
  | list xs => exact validateMonthList_isOk xs (by simpa [wellTypedMonths] using h)
  | str s => rfl
  | int n => rfl
  | map kvs => rfl
  | null => rfl

/-- `validateSingle` returns on a well-typed single event. -/
theorem validateSingle_isOk (e : Yaml) (h : wellTypedSingle e = true) :
    exceptIsOk (validateSingle e) = true := by
  cases e with
  | map kvs =>
    cases hg : ((ylookup kvs "date").isSome && (ylookup kvs "description").isSome) with
    | false => simp [validateSingle, hg, exceptIsOk]
    | true =>
      have h2 : (match ylookup kvs "date" with
                 | some (.str _) => true
                 | _ => false) = true := by
        simpa [wellTypedSingle, hg] using h
      have hg12 := hg
      simp only [Bool.and_eq_true] at hg12
      rcases hdate : ylookup kvs "date" with _ | v
      · rw [hdate] at h2; simp at h2
      · cases v with
        | str s => simp [validateSingle, hg12.1, hg12.2, hdate, exceptIsOk]
        | int n => rw [hdate] at h2; simp at h2
        | list l => rw [hdate] at h2; simp at h2
        | map m2 => rw [hdate] at h2; simp at h2
        | null => rw [hdate] at h2; simp at h2
  | str s => rfl
  | int n => rfl
  | list l => rfl
  | null => rfl

/-- The single-event loop returns on well-typed entries. -/
theorem validateSingleList_isOk (xs : List Yaml) (h : xs.all wellTypedSingle = true) :
    exceptIsOk (validateSingleList xs) = true := by
  induction xs with
  | nil => rfl
  | cons x rest ih =>
    simp only [List.all_cons, Bool.and_eq_true] at h
    have hx := validateSingle_isOk x h.1
    have hr := ih h.2
    cases hvx : validateSingle x with
    | error er => rw [hvx] at hx; simp [exceptIsOk] at hx
    | ok errs =>
      cases hrest : validateSingleList rest with
      | error er => rw [hrest] at hr; simp [exceptIsOk] at hr
      | ok r => simp [validateSingleList, hvx, hrest, exceptIsOk]

/-- `validateRecurring` returns on a well-typed recurring event. -/
theorem validateRecurring_isOk (e : Yaml) (h : wellTypedRecurring e = true) :
    exceptIsOk (validateRecurring e) = true := by
  cases e with
  | map kvs =>
    cases hg : ((ylookup kvs "recurrence").isSome && (ylookup kvs "start_date").isSome
        && (ylookup kvs "description").isSome) with
    | false => simp [validateRecurring, hg, exceptIsOk]
    | true =>
      have h2 : ((match ylookup kvs "start_date" with
                  | some (.str _) => true
                  | _ => false) &&
                 (match ylookup kvs "end_date" with
                  | none => true
                  | some (.str _) => true
                  | some _ => false)) = true := by
        simpa [wellTypedRecurring, hg] using h
      simp only [Bool.and_eq_true] at h2
      have hg123 := hg
      simp only [Bool.and_eq_true] at hg123
      rcases hst : ylookup kvs "start_date" with _ | v
      · rw [hst] at h2; simp at h2
      · cases v with
        | str s =>
          rcases hen : ylookup kvs "end_date" with _ | w
          · simp [validateRecurring, hg123.1.1, hg123.1.2, hg123.2, hst, hen, exceptIsOk]
          · cases w with
            | str t => simp [validateRecurring, hg123.1.1, hg123.1.2, hg123.2, hst, hen, exceptIsOk]
            | int n => rw [hen] at h2; simp at h2
            | list l => rw [hen] at h2; simp at h2
            | map m2 => rw [hen] at h2; simp at h2
            | null => rw [hen] at h2; simp at h2
        | int n => rw [hst] at h2; simp at h2
        | list l => rw [hst] at h2; simp at h2
        | map m2 => rw [hst] at h2; simp at h2
        | null => rw [hst] at h2; simp at h2
  | str s => rfl
  | int n => rfl
  | list l => rfl
  | null => rfl

/-- The recurring-event loop returns on well-typed entries. -/
theorem validateRecurringList_isOk (xs : List Yaml) (h : xs.all wellTypedRecurring = true) :
    exceptIsOk (validateRecurringList xs) = true := by
  induction xs with
  | nil => rfl
  | cons x rest ih =>
    simp only [List.all_cons, Bool.and_eq_true] at h
    have hx := validateRecurring_isOk x h.1
    have hr := ih h.2
    cases hvx : validateRecurring x with
    | error er => rw [hvx] at hx; simp [exceptIsOk] at hx
    | ok errs =>
      cases hrest : validateRecurringList rest with
      | error er => rw [hrest] at hr; simp [exceptIsOk] at hr
      | ok r => simp [validateRecurringList, hvx, hrest, exceptIsOk]

/-- `validateEvents` returns on a well-typed events value. -/
theorem validateEvents_isOk (v : Yaml) (h : wellTypedEvents v = true) :
    exceptIsOk (validateEvents v) = true := by
  cases v with
  | map ekvs =>
    have h2 : ((match ylookup ekvs "single_events" with
                | some (.list xs) => xs.all wellTypedSingle
                | _ => true) &&
               (match ylookup ekvs "recurring_events" with
                | some (.list xs) => xs.all wellTypedRecurring
                | _ => true)) = true := by
      simpa [wellTypedEvents] using h
    simp only [Bool.and_eq_true] at h2
    have hs1 : exceptIsOk ((match ylookup ekvs "single_events" with
           | some (.list xs) => validateSingleList xs
           | some _ => .ok ["'single_events' must be a list."]
           | none => .ok []) : Except PyErr (List String)) = true := by
      rcases hse : ylookup ekvs "single_events" with _ | w
      · simp [exceptIsOk]
      · cases w with
        | list xs =>
          have := h2.1
          rw [hse] at this
          exact validateSingleList_isOk xs this
        | str s => simp [exceptIsOk]
        | int n => simp [exceptIsOk]
        | map m2 => simp [exceptIsOk]
        | null => simp [exceptIsOk]
    have hs2 : exceptIsOk ((match ylookup ekvs "recurring_events" with
           | some (.list xs) => validateRecurringList xs
           | some _ => .ok ["'recurring_events' must be a list."]
           | none => .ok []) : Except PyErr (List String)) = true := by
      rcases hre : ylookup ekvs "recurring_events" with _ | w
      · simp [exceptIsOk]
      · cases w with
        | list xs =>
          have := h2.2
          rw [hre] at this
          exact validateRecurringList_isOk xs this
        | str s => simp [exceptIsOk]
        | int n => simp [exceptIsOk]
        | map m2 => simp [exceptIsOk]
        | null => simp [exceptIsOk]
    obtain ⟨e1, he1⟩ := exists_ok_of_isOk _ hs1
    obtain ⟨e2, he2⟩ := exists_ok_of_isOk _ hs2
    simp [validateEvents, he1, he2, exceptIsOk]
  | str s => rfl
  | int n => rfl
  | list l => rfl
  | null => rfl

/-- `validate_config` returns on a well-typed configuration. -/
theorem validate_config_isOk (c : Yaml) (h : wellTyped c = true) :
    exceptIsOk (validate_config c) = true := by
  cases c with
  | map kvs =>
    have h2 : ((match ylookup kvs "months_to_print" with
                | some v => wellTypedMonths v
                | none => true) &&
               (match ylookup kvs "events" with
                | some v => wellTypedEvents v
                | none => true)) = true := by
      simpa [wellTyped] using h
    simp only [Bool.and_eq_true] at h2
    have hM : exceptIsOk ((if (ylookup kvs "months_to_print").isSome then
           match pyGetItem (.map kvs) "months_to_print" with
           | .error er => .error er
           | .ok v => validateMonths v
         else .ok []) : Except PyErr (List String)) = true := by
      rcases hm : ylookup kvs "months_to_print" with _ | v
      · simp [hm, exceptIsOk]
      · have := h2.1
        rw [hm] at this
        simpa [hm, pyGetItem] using validateMonths_isOk v this
    have hE : exceptIsOk ((if (ylookup kvs "events").isSome then
           match pyGetItem (.map kvs) "events" with
           | .error er => .error er
           | .ok v => validateEvents v
         else .ok []) : Except PyErr (List String)) = true := by
      rcases he : ylookup kvs "events" with _ | v
      · simp [he, exceptIsOk]
      · have := h2.2
        rw [he] at this
        simpa [he, pyGetItem] using validateEvents_isOk v this
    obtain ⟨e1, he1⟩ := exists_ok_of_isOk _ hM
    obtain ⟨e2, he2⟩ := exists_ok_of_isOk _ hE
    simp [validate_config, pyContains, he1, he2, exceptIsOk]
  | str s => exact absurd h (by simp [wellTyped])
  | int n => exact absurd h (by simp [wellTyped])
  | list l => exact absurd h (by simp [wellTyped])
  | null => exact absurd h (by simp [wellTyped])

/-- C6 counterexample: a configuration whose `months_to_print` holds the
integer 2025 instead of a string makes `validate_config` raise `TypeError`
at `month_str + "-01"` (only `ValueError` is ever caught), instead of
returning an error list as the claim states for every raw value. -/
theorem validator_raises_on_nonstring_month :
    validate_config (.map [("months_to_print", .list [.int 2025]), ("events", .map [])])
      = .error .typeError := by
  decide

/-- C6 (amended): for every configuration whose top level is a mapping and
whose scrutinised fields are strings where the code applies string
operations to them (`months_to_print` entries, single-event `date`,
recurring-event `start_date`/`end_date`), `validate_config` returns an
error list without raising; a non-string in one of those positions (or a
non-mapping top level such as an integer) raises `TypeError` instead. -/
theorem validator_total_on_welltyped (c : Yaml) (h : wellTyped c = true) :
    ∃ errs, validate_config c = .ok errs :=
  exists_ok_of_isOk _ (validate_config_isOk c h)

/-- C6 witness: a well-typed configuration with two structural defects (a
non-list `months_to_print` and a missing `events` key) still returns an
error list. -/
theorem validator_total_on_welltyped_witness :
    wellTyped (.map [("months_to_print", .int 5)]) = true
    ∧ ∃ errs, validate_config (.map [("months_to_print", .int 5)]) = .ok errs :=
  ⟨by decide, validator_total_on_welltyped (.map [("months_to_print", .int 5)]) (by decide)⟩

/-- Induction over lists whose length is a multiple of 7: peel one full week
at a time. -/
theorem length7_rec (P : List Nat → Prop) (h0 : P [])
    (hstep : ∀ a b c d e f g rest, P rest → P (a :: b :: c :: d :: e :: f :: g :: rest)) :
    ∀ (n : Nat) (l : List Nat), l.length ≤ n → l.length % 7 = 0 → P l := by
  intro n
  induction n with
  | zero =>
    intro l hle _
    have hnil : l = [] := List.eq_nil_of_length_eq_zero (by omega)
    rw [hnil]; exact h0
  | succ k ih =>
    intro l hle hmod
    rcases l with _ | ⟨a, l⟩
    · exact h0
    rcases l with _ | ⟨b, l⟩
    · simp at hmod
    rcases l with _ | ⟨c, l⟩
    · simp at hmod
    rcases l with _ | ⟨d, l⟩
    · simp at hmod
    rcases l with _ | ⟨e, l⟩
    · simp at hmod
    rcases l with _ | ⟨f, l⟩
    · simp at hmod
    rcases l with _ | ⟨g, l⟩
    · simp at hmod
    apply hstep
    apply ih
    · simp at hle; omega
    · simp at hmod ⊢; omega

/-- Joining the weeks recovers the flat day list. -/
theorem chunks7_join7 (l : List Nat) (hmod : l.length % 7 = 0) : (chunks7 l).flatten = l := by
  refine length7_rec (fun l => (chunks7 l).flatten = l) rfl ?_ l.length l le_rfl hmod
  intro a b c d e f g rest ih
  rw [show chunks7 (a :: b :: c :: d :: e :: f :: g :: rest)
      = [a, b, c, d, e, f, g] :: chunks7 rest from rfl]
  rw [List.flatten_cons, ih]
  rfl

/-- Every week produced by `chunks7` on a multiple-of-7 list has 7 cells. -/
theorem chunks7_weeks7 (l : List Nat) (hmod : l.length % 7 = 0) :
    ∀ w ∈ chunks7 l, w.length = 7 := by
  refine length7_rec (fun l => ∀ w ∈ chunks7 l, w.length = 7) ?_ ?_ l.length l le_rfl hmod
  · intro w hw
    simp [chunks7] at hw
  · intro a b c d e f g rest ih w hw
    rw [show chunks7 (a :: b :: c :: d :: e :: f :: g :: rest)
        = [a, b, c, d, e, f, g] :: chunks7 rest from rfl] at hw
    rcases List.mem_cons.mp hw with rfl | hw2
    · rfl
    · exact ih w hw2

/-- The cell in week `i`, column `j` is the flat list's element `7*i + j`. -/
theorem chunks7_index (l : List Nat) (hmod : l.length % 7 = 0) :
    ∀ i j w d, (chunks7 l)[i]? = some w → w[j]? = some d → l[7 * i + j]? = some d := by
  refine length7_rec
    (fun l => ∀ i j w d, (chunks7 l)[i]? = some w → w[j]? = some d → l[7 * i + j]? = some d)
    ?_ ?_ l.length l le_rfl hmod
  · intro i j w d hw _
    simp [chunks7] at hw
  · intro a b c d0 e f g rest ih i j w d hw hd
    rw [show chunks7 (a :: b :: c :: d0 :: e :: f :: g :: rest)
        = [a, b, c, d0, e, f, g] :: chunks7 rest from rfl] at hw
    cases i with
    | zero =>
      rw [List.getElem?_cons_zero] at hw
      obtain rfl : [a, b, c, d0, e, f, g] = w := Option.some.inj hw
      have hj : j < 7 := by
        by_contra hj7
        rw [List.getElem?_eq_none (by simp; omega)] at hd
        exact Option.noConfusion hd
      interval_cases j <;> simpa using hd
    | succ i2 =>
      rw [List.getElem?_cons_succ] at hw
      have hrec := ih i2 j w d hw hd
      have harith : 7 * (i2 + 1) + j = 7 * i2 + j + 7 := by ring
      rw [harith]
      simpa using hrec

/-- An active (nonzero) cell of the flat day list lies in the in-month
segment, and its value is its position minus the leading padding, plus one. -/
theorem flat_getElem_active (L N T p d : Nat)
    (h : (List.replicate L 0 ++ (List.range N).map (· + 1) ++ List.replicate T 0)[p]? = some d)
    (hd : d ≠ 0) : L ≤ p ∧ p < L + N ∧ d = p - L + 1 := by
  by_cases h1 : p < L
  · exfalso
    rw [List.getElem?_append_left (by simp; omega),
        List.getElem?_append_left (by simp; omega)] at h
    rw [List.getElem?_replicate, if_pos h1] at h
    exact hd (Option.some.inj h).symm
  · by_cases h2 : p < L + N
    · rw [List.getElem?_append_left (by simp; omega),
          List.getElem?_append_right (by simp; omega)] at h
      simp only [List.length_replicate, List.getElem?_map,
        List.getElem?_range (show p - L < N by omega), Option.map_some'] at h
      exact ⟨by omega, h2, (Option.some.inj h).symm⟩
    · exfalso
      rw [List.getElem?_append_right (by simp; omega)] at h
      rw [List.getElem?_replicate] at h
      by_cases h3 : p - (List.replicate L 0 ++ (List.range N).map (· + 1)).length < T
      · rw [if_pos h3] at h
        exact hd (Option.some.inj h).symm
      · rw [if_neg h3] at h
        exact Option.noConfusion h

/-- Replicated zeros contribute nothing to the active-day filter. -/
theorem filter_replicate_zero (k : Nat) :
    (List.replicate k 0).filter (fun d => d != 0) = [] := by
  induction k with
  | zero => rfl
  | succ n ih => simp [List.replicate, List.filter, ih]

/-- February has 29 days exactly in Gregorian leap years. -/
theorem daysInMonth_feb (y : Nat) :
    daysInMonth y 2 = 29 ↔ ((y % 4 = 0 ∧ y % 100 ≠ 0) ∨ y % 400 = 0) := by
  unfold daysInMonth isLeapYear
  rw [if_pos rfl]
  cases h : ((y % 4 == 0 && y % 100 != 0) || y % 400 == 0) with
  | true =>
    simp only [Bool.or_eq_true, Bool.and_eq_true, beq_iff_eq, bne_iff_ne] at h
    simp [h]
  | false =>
    have h2 : ¬ ((y % 4 = 0 ∧ y % 100 ≠ 0) ∨ y % 400 = 0) := by
      intro hc
      have hbt : ((y % 4 == 0 && y % 100 != 0) || y % 400 == 0) = true := by
        rcases hc with ⟨h4, h100⟩ | h400
        · simp [h4, h100]
        · simp [h400]
      rw [h] at hbt
      exact Bool.noConfusion hbt
    simp [h2]

/-- C3: for every year 1900..2100 and month 1..12 the built month grid is a
sequence of weeks of exactly 7 cells; the active (nonzero) cells, read in
row-major order, are exactly the days `1..last_day_of_month`, each appearing
once, in strictly increasing order; an active cell for day `d` sits in the
column equal to the Sunday-based weekday index of `d` (ordinal mod 7, with
column 0 = Sunday); and February has 29 days exactly in Gregorian leap
years. -/
theorem grid_completeness (y m : Nat)
    (_hy1 : 1900 ≤ y) (_hy2 : y ≤ 2100) (_hm1 : 1 ≤ m) (_hm2 : m ≤ 12) :
    (∀ w ∈ monthdayscalendar y m, w.length = 7)
    ∧ ((monthdayscalendar y m).flatten.filter (fun d => d != 0)
        = (List.range (daysInMonth y m)).map (· + 1))
    ∧ (∀ (i j : Nat) (w : List Nat) (d : Nat),
        (monthdayscalendar y m)[i]? = some w → w[j]? = some d → d ≠ 0 →
        toOrdinal y m d % 7 = j)
    ∧ (daysInMonth y 2 = 29 ↔ ((y % 4 = 0 ∧ y % 100 ≠ 0) ∨ y % 400 = 0)) := by
  have hmod : (List.replicate (toOrdinal y m 1 % 7) 0
      ++ (List.range (daysInMonth y m)).map (· + 1)
      ++ List.replicate ((7 - (toOrdinal y m 1 % 7 + daysInMonth y m) % 7) % 7) 0).length
        % 7 = 0 := by
    simp only [List.length_append, List.length_replicate, List.length_map, List.length_range]
    omega
  have hcal : monthdayscalendar y m = chunks7 (List.replicate (toOrdinal y m 1 % 7) 0
      ++ (List.range (daysInMonth y m)).map (· + 1)
      ++ List.replicate ((7 - (toOrdinal y m 1 % 7 + daysInMonth y m) % 7) % 7) 0) := rfl
  refine ⟨?_, ?_, ?_, daysInMonth_feb y⟩
  · rw [hcal]
    exact chunks7_weeks7 _ hmod
  · rw [hcal, chunks7_join7 _ hmod]
    rw [List.filter_append, List.filter_append, filter_replicate_zero, filter_replicate_zero]
    rw [List.filter_eq_self.mpr ?_]
    · simp
    · intro a ha
      obtain ⟨x, _, rfl⟩ := List.mem_map.mp ha
      simp
  · intro i j w d hw hd hd0
    rw [hcal] at hw
    have hflat := chunks7_index _ hmod i j w d hw hd
    have hw7 : w.length = 7 := chunks7_weeks7 _ hmod w (List.getElem?_mem hw)
    have hj : j < 7 := by
      obtain ⟨hlt, _⟩ := List.getElem?_eq_some_iff.mp hd
      omega
    obtain ⟨hge, hlt, hdval⟩ := flat_getElem_active _ _ _ _ _ hflat hd0
    have hord : toOrdinal y m d = toOrdinal y m 1 + (d - 1) := by
      unfold toOrdinal
      omega
    rw [hord]
    omega

/-- C3 witness: February 2024 (a leap year inside 1900..2100) has 29 days. -/
theorem grid_completeness_witness :
    (1900 ≤ 2024 ∧ 2024 ≤ 2100 ∧ 1 ≤ 2 ∧ (2 : Nat) ≤ 12) ∧ daysInMonth 2024 2 = 29 :=
  ⟨by decide,
   (grid_completeness 2024 2 (by decide) (by decide) (by decide) (by decide)).2.2.2.mpr
     (by decide)⟩
